import Mathlib

/-!
# Prayer controller (`prayerController.js`)

A shallow embedding of the request handlers of `prayerController.js` over an explicit
model of the document store and of the notification side channel.

Modelling conventions.

* Document ids and impression ids are natural numbers; the store hands out fresh
  ids from the counter `Store.nextId` (the store's auto-generated ids).
* A JavaScript value that the handlers only pass through or test for truthiness
  (`title`, `description`, `endDateTime`, `prayerAccess`, `prayerType`, `content`)
  is an `Option Val`: `none` is `undefined` (the property is absent), `some v` a
  JSON scalar.
* `FieldValue.serverTimestamp()` is resolved to the time `now` of the write.
* A handler returns an `Outcome`: the store afterwards, the HTTP response, the
  notifications sent and the timers scheduled (`setTimeout`).
* The store client lives in `../config/firebase.js`, which is not part of the
  sources, so two of its properties are parameters (`Config`).
  `ignoreUndefinedProperties`: without this setting a write whose data holds an
  `undefined` property is rejected by the client (the handler's `catch` answers
  500); with it the property is left out of the write.
  `requiresArrayElements`: whether `FieldValue.arrayUnion()` and
  `FieldValue.arrayRemove()` called without any element throw (the handler's
  `catch` answers 500) or are accepted as a transform that changes nothing.
* Calls of `notificationService` do not fail.
-/

namespace PrayerController

/-! ## Values -/

/-- JSON scalars as they arrive in a request body and are stored in a document. -/
inductive Val where
  | null
  | bool (b : Bool)
  | num (n : Int)
  | str (s : String)
  deriving DecidableEq, Repr

/-- JavaScript truthiness of a scalar. -/
def Val.truthy : Val → Bool
  | .null => false
  | .bool b => b
  | .num n => n != 0
  | .str s => s != ""

/-- JavaScript truthiness of a possibly `undefined` value. -/
def truthy : Option Val → Bool
  | none => false
  | some v => v.truthy

def VALID_PRAYER_TYPES : List String := ["hidden", "visible"]

def VALID_PRAYER_ACCESS_MODIFIERS : List String := ["private", "public"]

/-- Models `Array.prototype.includes` on an array of strings: only a string equal to
one of the elements is included. -/
def includes (xs : List String) : Option Val → Bool
  | some (.str s) => xs.contains s
  | _ => false

/-! ## Documents and the store -/

structure Participants where
  users : List String
  groups : List String
  deriving DecidableEq, Repr

/-- A document of the `prayers` collection. -/
structure Prayer where
  title : Option Val
  description : Option Val
  endDateTime : Option Val
  prayerAccess : Option Val
  creatorId : String
  participants : Participants
  prayerType : Option Val
  createdAt : Nat
  updatedAt : Option Nat
  closedAt : Option Nat
  isOpen : Bool
  impressionCount : Nat
  deriving DecidableEq, Repr

/-- A document of a prayer's `impressions` subcollection. -/
structure Impression where
  content : Option Val
  userId : String
  createdAt : Nat
  deriving DecidableEq, Repr

/-- One stored impression: the prayer it lies under, its own id, its data. -/
structure ImpressionDoc where
  prayerId : Nat
  id : Nat
  data : Impression
  deriving DecidableEq, Repr

structure Store where
  prayers : List (Nat × Prayer)
  impressions : List ImpressionDoc
  nextId : Nat
  deriving DecidableEq, Repr

structure Config where
  ignoreUndefinedProperties : Bool
  requiresArrayElements : Bool
  deriving DecidableEq, Repr

def Store.empty : Store := { prayers := [], impressions := [], nextId := 0 }

/-- Models `db.collection("prayers").doc(id).get()`: `none` when the snapshot does not
exist. -/
def Store.get (s : Store) (id : Nat) : Option Prayer :=
  s.prayers.lookup id

/-- Models `prayerRef.collection("impressions").get()`. -/
def Store.impressionsOf (s : Store) (prayerId : Nat) : List ImpressionDoc :=
  s.impressions.filter (fun r => r.prayerId == prayerId)

/-- Models `db.collection("prayers").add(data)`: a fresh id is generated. -/
def Store.add (s : Store) (data : Prayer) : Store × Nat :=
  ({ s with prayers := s.prayers ++ [(s.nextId, data)], nextId := s.nextId + 1 }, s.nextId)

/-- Models `prayerRef.update(...)` with the field changes `f`: fails (`none`) when the
document does not exist. -/
def Store.update (s : Store) (id : Nat) (f : Prayer → Prayer) : Option Store :=
  match s.get id with
  | none => none
  | some _ =>
    some { s with prayers := s.prayers.map (fun p => if p.1 = id then (p.1, f p.2) else p) }

/-- Models `db.collection("prayers").doc(id).delete()`; the subcollection is not
touched. -/
def Store.delete (s : Store) (id : Nat) : Store :=
  { s with prayers := s.prayers.filter (fun p => p.1 != id) }

/-- Models `FieldValue.arrayUnion(...elements)`: each element not yet in the array is
appended, in order. -/
def arrayUnion (xs : List String) (elements : List String) : List String :=
  elements.foldl (fun acc e => if e ∈ acc then acc else acc ++ [e]) xs

/-- Models `FieldValue.arrayRemove(...elements)`: every occurrence of each element is
removed. -/
def arrayRemove (xs : List String) (elements : List String) : List String :=
  xs.filter (fun x => !elements.contains x)

/-! ## Responses and effects -/

/-- The JSON object a prayer is answered with; `none` is a property that is not in
the object. -/
structure PrayerJson where
  id : Nat
  title : Option Val
  description : Option Val
  endDateTime : Option Val
  prayerAccess : Option Val
  creatorId : Option String
  participants : Option Participants
  prayerType : Option Val
  createdAt : Option Nat
  updatedAt : Option Nat
  closedAt : Option Nat
  isOpen : Option Bool
  impressionCount : Option Nat
  deriving DecidableEq, Repr

/-- The object `{ id: doc.id, ...data }`. -/
def spread (id : Nat) (data : Prayer) : PrayerJson :=
  { id := id
    title := data.title
    description := data.description
    endDateTime := data.endDateTime
    prayerAccess := data.prayerAccess
    creatorId := some data.creatorId
    participants := some data.participants
    prayerType := data.prayerType
    createdAt := some data.createdAt
    updatedAt := data.updatedAt
    closedAt := data.closedAt
    isOpen := some data.isOpen
    impressionCount := some data.impressionCount }

inductive Body where
  | error (msg : String)
  | message (msg : String)
  | prayer (j : PrayerJson)
  | prayers (js : List PrayerJson)
  deriving DecidableEq, Repr

structure Response where
  status : Nat
  body : Body
  deriving DecidableEq, Repr

/-- The object `{ id: doc.id, ...doc.data() }` of an impression. -/
structure ImpressionJson where
  id : Nat
  content : Option Val
  userId : String
  createdAt : Nat
  deriving DecidableEq, Repr

/-- Calls of `notificationService`. -/
inductive Notification where
  | notifyPrayerClosed (prayerId : Nat)
  | notifyUserAddedToPrayer (userId : String) (prayerId : Nat)
  | notifyUserRemovedFromPrayer (userId : String) (prayerId : Nat)
  | notifyNewImpression (prayerId : Nat) (userId : String)
  | notifyHiddenImpressionsRevealed (prayerId : Nat) (impressions : List ImpressionJson)
  deriving DecidableEq, Repr

structure Outcome where
  store : Store
  res : Response
  notifications : List Notification
  timers : List Nat
  deriving DecidableEq, Repr

/-- A handler that answers without having written or notified anything. -/
def respond (s : Store) (status : Nat) (body : Body) : Outcome :=
  { store := s, res := { status := status, body := body }, notifications := [], timers := [] }

/-- What the background callback leaves behind: it has no caller to answer;
`errors` are the messages written with `console.error`. -/
structure Background where
  store : Store
  notifications : List Notification
  errors : List String
  deriving DecidableEq, Repr

/-- The store client refuses data holding an `undefined` property unless it was
configured with `ignoreUndefinedProperties`. -/
def rejectsUndefined (cfg : Config) (fields : List (Option Val)) : Bool :=
  !cfg.ignoreUndefinedProperties && fields.any Option.isNone

/-- The store client refuses `FieldValue.arrayUnion(...elements)` and
`FieldValue.arrayRemove(...elements)` without elements when it requires at least
one. -/
def rejectsEmpty (cfg : Config) (elements : List String) : Bool :=
  cfg.requiresArrayElements && elements.isEmpty

/-- The value of a field after an update that carries `new` for it: an `undefined`
property is left out of the write. -/
def patchField (new old : Option Val) : Option Val :=
  match new with
  | some v => some v
  | none => old

/-! ## Requests -/

structure ParticipantsBody where
  users : Option (List String)
  groups : Option (List String)
  deriving DecidableEq, Repr

structure CreateBody where
  title : Option Val
  description : Option Val
  endDateTime : Option Val
  prayerAccess : Option Val
  participants : Option ParticipantsBody
  prayerType : Option Val
  deriving DecidableEq, Repr

structure UpdateBody where
  title : Option Val
  description : Option Val
  endDateTime : Option Val
  prayerAccess : Option Val
  prayerType : Option Val
  deriving DecidableEq, Repr

/-- Models `participants?.users || []` (and the same for `groups`). -/
def orEmpty (participants : Option ParticipantsBody)
    (field : ParticipantsBody → Option (List String)) : List String :=
  match participants with
  | none => []
  | some p =>
    match field p with
    | none => []
    | some xs => xs

/-! ## The handlers -/

/-- Handler `createPrayer` (source lines 7-58).  The 500 is the `catch` branch, taken
when the store client refuses `newPrayer`.  In the 201 body `createdAt` stands for the
server-timestamp sentinel. -/
def createPrayer (cfg : Config) (s : Store) (now : Nat) (uid : String) (body : CreateBody) :
    Outcome :=
  let creatorId := uid
  if !includes VALID_PRAYER_TYPES body.prayerType then
    respond s 400 (.error "Invalid prayer type")
  else if !includes VALID_PRAYER_ACCESS_MODIFIERS body.prayerAccess then
    respond s 400 (.error "Invalid prayer access modifier")
  else
    let newPrayer : Prayer :=
      { title := body.title
        description := body.description
        endDateTime := body.endDateTime
        prayerAccess := body.prayerAccess
        creatorId := creatorId
        participants :=
          { users := orEmpty body.participants (fun p => p.users)
            groups := orEmpty body.participants (fun p => p.groups) }
        prayerType := body.prayerType
        createdAt := now
        updatedAt := none
        closedAt := none
        isOpen := true
        impressionCount := 0 }
    if rejectsUndefined cfg [body.title, body.description, body.endDateTime,
        body.prayerAccess, body.prayerType] then
      respond s 500 (.error "Failed to create prayer")
    else
      let (s', docRefId) := s.add newPrayer
      { store := s'
        res := { status := 201, body := .prayer (spread docRefId newPrayer) }
        notifications := []
        timers := if truthy body.endDateTime then [docRefId] else [] }

/-- Handler `getPrayer` (source lines 60-83). -/
def getPrayer (s : Store) (id : Nat) : Outcome :=
  match s.get id with
  | none => respond s 404 (.error "Prayer not found")
  | some prayerData =>
    if prayerData.prayerType = some (.str "hidden") ∧ prayerData.isOpen = true then
      respond s 200 (.prayer
        { id := id
          title := prayerData.title
          description := prayerData.description
          prayerType := prayerData.prayerType
          impressionCount := some prayerData.impressionCount
          isOpen := some prayerData.isOpen
          endDateTime := none
          prayerAccess := none
          creatorId := none
          participants := none
          createdAt := none
          updatedAt := none
          closedAt := none })
    else
      respond s 200 (.prayer (spread id prayerData))

/-- Handler `updatePrayer` (source lines 85-115).  `updateData` always carries `title`,
`description`, `endDateTime`, `prayerAccess` (possibly `undefined`) and `updatedAt`,
and `prayerType` only when it is truthy.  The 500s are the `catch` branch: the client
refuses an `undefined` property, or the document does not exist. -/
def updatePrayer (cfg : Config) (s : Store) (now : Nat) (id : Nat) (body : UpdateBody) :
    Outcome :=
  if truthy body.prayerType && !includes VALID_PRAYER_TYPES body.prayerType then
    respond s 400 (.error "Invalid prayer type")
  else if !includes VALID_PRAYER_ACCESS_MODIFIERS body.prayerAccess then
    respond s 400 (.error "Invalid prayer access modifier")
  else if rejectsUndefined cfg [body.title, body.description, body.endDateTime,
      body.prayerAccess] then
    respond s 500 (.error "Failed to update prayer")
  else
    match s.update id (fun d =>
        { d with
          title := patchField body.title d.title
          description := patchField body.description d.description
          endDateTime := patchField body.endDateTime d.endDateTime
          prayerAccess := patchField body.prayerAccess d.prayerAccess
          updatedAt := some now
          prayerType := if truthy body.prayerType then body.prayerType else d.prayerType }) with
    | none => respond s 500 (.error "Failed to update prayer")
    | some s' => respond s' 200 (.message "Prayer updated successfully")

/-- Handler `deletePrayer` (source lines 117-124). -/
def deletePrayer (s : Store) (id : Nat) : Outcome :=
  respond (s.delete id) 200 (.message "Prayer deleted successfully")

/-- Handler `listPrayers` (source lines 126-154); `type` is `req.query.type`. -/
def listPrayers (s : Store) (type : Option Val) : Outcome :=
  let docs :=
    if truthy type && includes VALID_PRAYER_TYPES type then
      s.prayers.filter (fun doc => doc.2.prayerType == type)
    else
      s.prayers
  let prayers := docs.map (fun doc =>
    let data := doc.2
    if data.prayerType = some (.str "hidden") ∧ data.isOpen = true then
      { id := doc.1
        title := data.title
        description := data.description
        prayerType := data.prayerType
        impressionCount := some data.impressionCount
        isOpen := some data.isOpen
        endDateTime := none
        prayerAccess := none
        creatorId := none
        participants := none
        createdAt := none
        updatedAt := none
        closedAt := none }
    else
      spread doc.1 data)
  respond s 200 (.prayers prayers)

/-- Handler `closePrayer` (source lines 156-183); `uid` is `req.user.uid`. -/
def closePrayer (s : Store) (now : Nat) (uid : String) (prayerId : Nat) : Outcome :=
  match s.get prayerId with
  | none => respond s 404 (.error "Prayer not found")
  | some prayerData =>
    if prayerData.creatorId ≠ uid then
      respond s 403 (.error "Only the prayer creator can close the prayer")
    else
      match s.update prayerId (fun d => { d with isOpen := false, closedAt := some now }) with
      | none => respond s 500 (.error "Failed to close prayer")
      | some s' =>
        { store := s'
          res := { status := 200, body := .message "Prayer closed successfully" }
          notifications := [.notifyPrayerClosed prayerId]
          timers := [] }

/-- Handler `addParticipants` (source lines 185-215).  `users` and `groups` default to
`[]`.  The first 500 is the `catch` branch for a client that refuses
`FieldValue.arrayUnion()` without elements. -/
def addParticipants (cfg : Config) (s : Store) (uid : String) (prayerId : Nat)
    (body : ParticipantsBody) : Outcome :=
  let users := body.users.getD []
  let groups := body.groups.getD []
  match s.get prayerId with
  | none => respond s 404 (.error "Prayer not found")
  | some prayerData =>
    if prayerData.creatorId ≠ uid then
      respond s 403 (.error "Only the prayer creator can add participants")
    else if rejectsEmpty cfg users || rejectsEmpty cfg groups then
      respond s 500 (.error "Failed to add participants")
    else
      match s.update prayerId (fun d =>
          { d with participants :=
              { users := arrayUnion d.participants.users users
                groups := arrayUnion d.participants.groups groups } }) with
      | none => respond s 500 (.error "Failed to add participants")
      | some s' =>
        { store := s'
          res := { status := 200, body := .message "Participants added successfully" }
          notifications := users.map (fun userId => .notifyUserAddedToPrayer userId prayerId)
          timers := [] }

/-- Handler `removeParticipants` (source lines 217-247), as `addParticipants` with
`FieldValue.arrayRemove`. -/
def removeParticipants (cfg : Config) (s : Store) (uid : String) (prayerId : Nat)
    (body : ParticipantsBody) : Outcome :=
  let users := body.users.getD []
  let groups := body.groups.getD []
  match s.get prayerId with
  | none => respond s 404 (.error "Prayer not found")
  | some prayerData =>
    if prayerData.creatorId ≠ uid then
      respond s 403 (.error "Only the prayer creator can remove participants")
    else if rejectsEmpty cfg users || rejectsEmpty cfg groups then
      respond s 500 (.error "Failed to remove participants")
    else
      match s.update prayerId (fun d =>
          { d with participants :=
              { users := arrayRemove d.participants.users users
                groups := arrayRemove d.participants.groups groups } }) with
      | none => respond s 500 (.error "Failed to remove participants")
      | some s' =>
        { store := s'
          res := { status := 200, body := .message "Participants removed successfully" }
          notifications := users.map (fun userId => .notifyUserRemovedFromPrayer userId prayerId)
          timers := [] }

/-- The transaction of `addImpression`: a new impression document under the prayer
and the increment of the counter, both or (when the prayer is gone) neither. -/
def impressionTransaction (s : Store) (prayerId : Nat) (newImpression : Impression) :
    Option Store :=
  let impressionRef := s.nextId
  let s1 : Store :=
    { s with
      impressions := s.impressions ++ [{ prayerId := prayerId, id := impressionRef,
                                         data := newImpression }]
      nextId := s.nextId + 1 }
  s1.update prayerId (fun d => { d with impressionCount := d.impressionCount + 1 })

/-- Handler `addImpression` (source lines 249-290).  The 500s are the `catch` branch:
the client refuses an `undefined` `content`, or the transaction fails. -/
def addImpression (cfg : Config) (s : Store) (now : Nat) (uid : String) (prayerId : Nat)
    (content : Option Val) : Outcome :=
  let userId := uid
  match s.get prayerId with
  | none => respond s 404 (.error "Prayer not found")
  | some prayerData =>
    if !prayerData.isOpen then
      respond s 400 (.error "Prayer is closed for impressions")
    else
      let newImpression : Impression := { content := content, userId := userId, createdAt := now }
      if rejectsUndefined cfg [content] then
        respond s 500 (.error "Failed to add impression")
      else
        match impressionTransaction s prayerId newImpression with
        | none => respond s 500 (.error "Failed to add impression")
        | some s' =>
          { store := s'
            res := { status := 201, body := .message "Impression added successfully" }
            notifications :=
              if prayerData.prayerType = some (.str "visible") then
                [.notifyNewImpression prayerId userId]
              else []
            timers := [] }

/-- The timer callback `closePrayerAutomatically` (source lines 292-321).  Updating a
document that does not exist throws; the `catch` logs the error and returns. -/
def closePrayerAutomatically (s : Store) (now : Nat) (prayerId : Nat) : Background :=
  match s.get prayerId with
  | none =>
    { store := s, notifications := [], errors := ["Failed to automatically close prayer"] }
  | some prayerData =>
    match s.update prayerId (fun d => { d with isOpen := false, closedAt := some now }) with
    | none =>
      { store := s, notifications := [], errors := ["Failed to automatically close prayer"] }
    | some s' =>
      { store := s'
        notifications :=
          .notifyPrayerClosed prayerId ::
            (if prayerData.prayerType = some (.str "hidden") then
              let impressions := (s'.impressionsOf prayerId).map (fun doc =>
                ({ id := doc.id, content := doc.data.content, userId := doc.data.userId,
                   createdAt := doc.data.createdAt } : ImpressionJson))
              [.notifyHiddenImpressionsRevealed prayerId impressions]
            else [])
        errors := [] }

/-! ## Sequences of calls -/

/-- The calls that write to the store, with their inputs. -/
inductive Op where
  | createPrayer (now : Nat) (uid : String) (body : CreateBody)
  | updatePrayer (now : Nat) (id : Nat) (body : UpdateBody)
  | closePrayer (now : Nat) (uid : String) (id : Nat)
  | addParticipants (uid : String) (id : Nat) (body : ParticipantsBody)
  | removeParticipants (uid : String) (id : Nat) (body : ParticipantsBody)
  | addImpression (now : Nat) (uid : String) (id : Nat) (content : Option Val)
  | closePrayerAutomatically (now : Nat) (id : Nat)
  deriving DecidableEq, Repr

/-- The store after one call. -/
def step (cfg : Config) (s : Store) : Op → Store
  | .createPrayer now uid body => (createPrayer cfg s now uid body).store
  | .updatePrayer now id body => (updatePrayer cfg s now id body).store
  | .closePrayer now uid id => (closePrayer s now uid id).store
  | .addParticipants uid id body => (addParticipants cfg s uid id body).store
  | .removeParticipants uid id body => (removeParticipants cfg s uid id body).store
  | .addImpression now uid id content => (addImpression cfg s now uid id content).store
  | .closePrayerAutomatically now id => (closePrayerAutomatically s now id).store

/-- The store after a sequence of calls. -/
def run (cfg : Config) (s : Store) (ops : List Op) : Store :=
  ops.foldl (step cfg) s

/-- The bookkeeping of a store: ids handed out lie below `nextId`, no prayer id is
stored twice, and each prayer's `impressionCount` is the number of impressions
stored under it. -/
def Store.Consistent (s : Store) : Prop :=
  (∀ p ∈ s.prayers, p.1 < s.nextId) ∧
  (∀ r ∈ s.impressions, r.prayerId < s.nextId) ∧
  (s.prayers.map Prod.fst).Nodup ∧
  (∀ p ∈ s.prayers, p.2.impressionCount = (s.impressionsOf p.1).length)

instance (s : Store) : Decidable s.Consistent := by
  unfold Store.Consistent
  infer_instance

/-! ## Sample data -/

def sampleHidden : Prayer :=
  { title := some (.str "Healing")
    description := some (.str "for a friend")
    endDateTime := some (.num 900)
    prayerAccess := some (.str "private")
    creatorId := "alice"
    participants := { users := ["bob"], groups := [] }
    prayerType := some (.str "hidden")
    createdAt := 1
    updatedAt := none
    closedAt := none
    isOpen := true
    impressionCount := 1 }

def sampleVisible : Prayer :=
  { title := some (.str "Thanks")
    description := some (.str "harvest")
    endDateTime := none
    prayerAccess := some (.str "public")
    creatorId := "carol"
    participants := { users := [], groups := ["choir"] }
    prayerType := some (.str "visible")
    createdAt := 2
    updatedAt := none
    closedAt := none
    isOpen := true
    impressionCount := 0 }

def sampleImpression : ImpressionDoc :=
  { prayerId := 0, id := 2, data := { content := some (.str "amen"), userId := "bob", createdAt := 3 } }

def sampleStore : Store :=
  { prayers := [(0, sampleHidden), (1, sampleVisible)]
    impressions := [sampleImpression]
    nextId := 3 }

def sampleCreate : CreateBody :=
  { title := some (.str "Rain")
    description := some (.str "for the fields")
    endDateTime := some (.num 500)
    prayerAccess := some (.str "public")
    participants := none
    prayerType := some (.str "invalid") }

def sampleValidCreate : CreateBody :=
  { title := some (.str "Rain")
    description := some (.str "for the fields")
    endDateTime := some (.num 500)
    prayerAccess := some (.str "public")
    participants := some { users := some ["bob", "bob"], groups := none }
    prayerType := some (.str "hidden") }

def sampleOps : List Op :=
  [ .createPrayer 1 "alice" sampleValidCreate,
    .addImpression 2 "bob" 0 (some (.str "amen")),
    .closePrayer 3 "alice" 0,
    .addImpression 4 "carol" 0 (some (.str "late")) ]

/-- The prayer stored under id 0 after `sampleOps`. -/
def sampleRunPrayer : Prayer :=
  { title := some (.str "Rain")
    description := some (.str "for the fields")
    endDateTime := some (.num 500)
    prayerAccess := some (.str "public")
    creatorId := "alice"
    participants := { users := ["bob", "bob"], groups := [] }
    prayerType := some (.str "hidden")
    createdAt := 1
    updatedAt := none
    closedAt := some 3
    isOpen := false
    impressionCount := 1 }

/-- The store right after one prayer was created from `sampleValidCreate`. -/
def sampleCreated : Store :=
  (createPrayer ⟨false, true⟩ Store.empty 1 "alice" sampleValidCreate).store

/-! ## Facts about the store primitives -/

theorem lookup_map_update (l : List (Nat × Prayer)) (i j : Nat) (f : Prayer → Prayer) :
    (l.map (fun p => if p.1 = i then (p.1, f p.2) else p)).lookup j =
      if j = i then (l.lookup j).map f else l.lookup j := by
  induction l with
  | nil => simp
  | cons p l ih =>
    obtain ⟨k, d⟩ := p
    by_cases hk : k = i
    · by_cases hj : j = k
      · subst hj; subst hk; simp [List.lookup_cons]
      · have hjk : (j == k) = false := by simpa using hj
        simp only [List.map_cons, hk, if_true, List.lookup_cons] at ih ⊢
        rw [← hk, hjk]; simp only []; rw [hk]; exact ih
    · by_cases hj : j = k
      · subst hj; simp [List.lookup_cons, hk]
      · have hjk : (j == k) = false := by simpa using hj
        simp only [List.map_cons, hk, if_false, List.lookup_cons, hjk]
        exact ih

theorem update_eq_some (s : Store) (i : Nat) (f : Prayer → Prayer) (d : Prayer)
    (h : s.get i = some d) :
    s.update i f =
      some { s with prayers := s.prayers.map (fun p => if p.1 = i then (p.1, f p.2) else p) } := by
  simp [Store.update, h]

theorem get_of_update (s s' : Store) (i j : Nat) (f : Prayer → Prayer)
    (h : s.update i f = some s') :
    s'.get j = if j = i then (s.get j).map f else s.get j := by
  unfold Store.update at h
  split at h
  · simp at h
  · simp only [Option.some.injEq] at h
    subst h
    simp only [Store.get]
    exact lookup_map_update s.prayers i j f

theorem impressions_of_update (s s' : Store) (i : Nat) (f : Prayer → Prayer)
    (h : s.update i f = some s') :
    s'.impressions = s.impressions ∧ s'.nextId = s.nextId ∧
      s'.prayers.map Prod.fst = s.prayers.map Prod.fst := by
  unfold Store.update at h
  split at h
  · simp at h
  · simp only [Option.some.injEq] at h
    subst h
    refine ⟨rfl, rfl, ?_⟩
    simp only [List.map_map]
    apply List.map_congr_left
    intro p _
    by_cases hp : p.1 = i <;> simp [hp]

theorem impressionTransaction_spec (s : Store) (i : Nat) (imp : Impression) (d : Prayer)
    (h : s.get i = some d) :
    ∃ s', impressionTransaction s i imp = some s' ∧
      (∀ j, s'.get j =
        if j = i then (s.get j).map (fun d => { d with impressionCount := d.impressionCount + 1 })
        else s.get j) ∧
      s'.impressions = s.impressions ++ [{ prayerId := i, id := s.nextId, data := imp }] ∧
      s'.nextId = s.nextId + 1 ∧
      s'.prayers.map Prod.fst = s.prayers.map Prod.fst := by
  let s1 : Store :=
    { s with
      impressions := s.impressions ++ [{ prayerId := i, id := s.nextId, data := imp }]
      nextId := s.nextId + 1 }
  have h1 : s1.get i = some d := h
  have hu := update_eq_some s1 i
    (fun d => { d with impressionCount := d.impressionCount + 1 }) d h1
  refine ⟨_, hu, ?_, ?_, ?_, ?_⟩
  · intro j
    exact get_of_update s1 _ i j _ hu
  · exact (impressions_of_update s1 _ i _ hu).1
  · exact (impressions_of_update s1 _ i _ hu).2.1
  · exact (impressions_of_update s1 _ i _ hu).2.2

theorem update_shape (s s' : Store) (i : Nat) (f : Prayer → Prayer)
    (h : s.update i f = some s') :
    s' = { s with prayers := s.prayers.map (fun p => if p.1 = i then (p.1, f p.2) else p) } := by
  unfold Store.update at h
  split at h
  · simp at h
  · simp only [Option.some.injEq] at h
    exact h.symm

theorem mem_of_get (s : Store) (i : Nat) (d : Prayer) (h : s.get i = some d) :
    (i, d) ∈ s.prayers := by
  unfold Store.get at h
  generalize s.prayers = l at h
  induction l with
  | nil => simp at h
  | cons p l ih =>
    obtain ⟨k, e⟩ := p
    by_cases hk : i = k
    · subst hk
      simp [List.lookup_cons] at h
      simp [h]
    · have hik : (i == k) = false := by simpa using hk
      simp only [List.lookup_cons, hik] at h
      exact List.mem_cons_of_mem _ (ih h)

theorem get_of_mem (s : Store) (i : Nat) (d : Prayer)
    (hn : (s.prayers.map Prod.fst).Nodup) (h : (i, d) ∈ s.prayers) : s.get i = some d := by
  unfold Store.get
  generalize s.prayers = l at h hn
  induction l with
  | nil => simp at h
  | cons p l ih =>
    obtain ⟨k, e⟩ := p
    simp only [List.map_cons, List.nodup_cons, List.mem_map, not_exists, not_and] at hn
    rcases List.mem_cons.mp h with h | h
    · simp only [Prod.mk.injEq] at h
      obtain ⟨rfl, rfl⟩ := h
      simp [List.lookup_cons]
    · have hik : ¬ i = k := by
        intro e'
        exact hn.1 (i, d) h e'
      have hik' : (i == k) = false := by simpa using hik
      simp only [List.lookup_cons, hik']
      exact ih h hn.2

/-! ## arrayUnion -/

theorem arrayUnion_nil (xs : List String) : arrayUnion xs [] = xs := rfl

theorem arrayUnion_cons (xs : List String) (e : String) (es : List String) :
    arrayUnion xs (e :: es) = arrayUnion (if e ∈ xs then xs else xs ++ [e]) es := rfl

theorem mem_arrayUnion (u : String) (es xs : List String) :
    u ∈ arrayUnion xs es ↔ u ∈ xs ∨ u ∈ es := by
  induction es generalizing xs with
  | nil => simp [arrayUnion_nil]
  | cons e es ih =>
    rw [arrayUnion_cons, ih]
    by_cases he : e ∈ xs
    · simp only [he, if_true, List.mem_cons]
      constructor
      · rintro (h | h)
        · exact Or.inl h
        · exact Or.inr (Or.inr h)
      · rintro (h | h | h)
        · exact Or.inl h
        · exact Or.inl (h ▸ he)
        · exact Or.inr h
    · simp only [he, if_false, List.mem_append, List.mem_singleton, List.mem_cons]
      tauto

theorem count_arrayUnion (u : String) (es xs : List String) :
    (arrayUnion xs es).count u =
      if u ∈ xs then xs.count u else if u ∈ es then 1 else 0 := by
  induction es generalizing xs with
  | nil =>
    rw [arrayUnion_nil]
    by_cases hu : u ∈ xs
    · simp [hu]
    · simp [hu, List.count_eq_zero_of_not_mem hu]
  | cons e es ih =>
    rw [arrayUnion_cons, ih]
    by_cases he : e ∈ xs
    · simp only [he, if_true, List.mem_cons]
      by_cases hu : u ∈ xs
      · simp [hu]
      · have hue : u ≠ e := fun h => hu (h ▸ he)
        simp [hu, hue]
    · simp only [he, if_false, List.mem_append, List.mem_singleton, List.mem_cons,
        List.count_append]
      by_cases hu : u ∈ xs
      · have hue : u ≠ e := fun h => he (h ▸ hu)
        have hne : ¬ e = u := fun h => hue h.symm
        simp [hu, List.count_cons, hne]
      · by_cases hue : u = e
        · subst hue
          simp [hu, List.count_eq_zero_of_not_mem hu]
        · have hne : ¬ e = u := fun h => hue h.symm
          simp [hu, hue, List.count_cons, hne]

theorem arrayUnion_of_subset (es xs : List String) (h : ∀ e ∈ es, e ∈ xs) :
    arrayUnion xs es = xs := by
  induction es with
  | nil => rfl
  | cons e es ih =>
    have he : e ∈ xs := h e (List.mem_cons_self _ _)
    rw [arrayUnion_cons, if_pos he]
    exact ih (fun a ha => h a (List.mem_cons_of_mem _ ha))

theorem arrayUnion_idempotent (xs es : List String) :
    arrayUnion (arrayUnion xs es) es = arrayUnion xs es :=
  arrayUnion_of_subset es _ (fun e he => (mem_arrayUnion e es xs).mpr (Or.inr he))

theorem prefix_arrayUnion (es xs : List String) : xs <+: arrayUnion xs es := by
  induction es generalizing xs with
  | nil => exact List.prefix_refl _
  | cons e es ih =>
    rw [arrayUnion_cons]
    by_cases he : e ∈ xs
    · rw [if_pos he]; exact ih xs
    · rw [if_neg he]
      exact List.IsPrefix.trans (List.prefix_append xs [e]) (ih _)

/-! ## The bookkeeping is kept by every write -/

theorem consistent_empty : Store.empty.Consistent := by
  simp [Store.Consistent, Store.empty]

theorem consistent_update (s s' : Store) (i : Nat) (f : Prayer → Prayer)
    (hf : ∀ d, (f d).impressionCount = d.impressionCount)
    (h : s.update i f = some s') (hc : s.Consistent) : s'.Consistent := by
  obtain ⟨h1, h2, h3, h4⟩ := hc
  have hi := impressions_of_update s s' i f h
  have hs := update_shape s s' i f h
  refine ⟨?_, ?_, ?_, ?_⟩
  · intro p hp
    rw [hs] at hp
    simp only [List.mem_map] at hp
    obtain ⟨q, hq, rfl⟩ := hp
    rw [hi.2.1]
    by_cases hqi : q.1 = i
    · simpa [hqi] using h1 q hq
    · simpa [hqi] using h1 q hq
  · intro r hr
    rw [hi.1] at hr
    rw [hi.2.1]
    exact h2 r hr
  · rw [hi.2.2]
    exact h3
  · intro p hp
    have himp : ∀ j, s'.impressionsOf j = s.impressionsOf j := by
      intro j
      simp [Store.impressionsOf, hi.1]
    rw [hs] at hp
    simp only [List.mem_map] at hp
    obtain ⟨q, hq, rfl⟩ := hp
    by_cases hqi : q.1 = i
    · simp only [hqi, if_true, hf, himp]
      rw [← hqi]
      exact h4 q hq
    · simp only [hqi, if_false, himp]
      exact h4 q hq

theorem consistent_transaction (s s' : Store) (i : Nat) (imp : Impression) (d : Prayer)
    (hg : s.get i = some d) (h : impressionTransaction s i imp = some s')
    (hc : s.Consistent) : s'.Consistent := by
  obtain ⟨h1, h2, h3, h4⟩ := hc
  have hlt : i < s.nextId := h1 (i, d) (mem_of_get s i d hg)
  unfold impressionTransaction at h
  have hs := update_shape _ s' i _ h
  simp only [] at hs
  subst hs
  refine ⟨?_, ?_, ?_, ?_⟩
  · intro p hp
    simp only [List.mem_map] at hp
    obtain ⟨q, hq, rfl⟩ := hp
    have := h1 q hq
    by_cases hqi : q.1 = i
    · simp only [hqi, if_true]
      omega
    · simp only [hqi, if_false]
      omega
  · intro r hr
    simp only [List.mem_append, List.mem_singleton] at hr
    rcases hr with hr | hr
    · have := h2 r hr
      show r.prayerId < s.nextId + 1
      omega
    · subst hr
      show i < s.nextId + 1
      omega
  · simp only [List.map_map]
    have : (Prod.fst ∘ fun p : Nat × Prayer =>
        if p.1 = i then (p.1, { p.2 with impressionCount := p.2.impressionCount + 1 }) else p)
        = Prod.fst := by
      funext p
      by_cases hp : p.1 = i <;> simp [hp]
    rw [this]
    exact h3
  · intro p hp
    simp only [List.mem_map] at hp
    obtain ⟨q, hq, rfl⟩ := hp
    have hq4 := h4 q hq
    by_cases hqi : q.1 = i
    · simp only [hqi, if_true, Store.impressionsOf, List.filter_append, List.length_append]
      simp only [Store.impressionsOf, hqi] at hq4
      simp [hq4]
    · have hiq : ¬ i = q.1 := fun e => hqi e.symm
      simp only [hqi, if_false, Store.impressionsOf, List.filter_append, List.length_append]
      simp only [Store.impressionsOf] at hq4
      simp [hq4, hiq]

theorem consistent_add (s : Store) (data : Prayer) (h0 : data.impressionCount = 0)
    (hc : s.Consistent) : (s.add data).1.Consistent := by
  obtain ⟨h1, h2, h3, h4⟩ := hc
  have hnone : s.impressionsOf s.nextId = [] := by
    simp only [Store.impressionsOf, List.filter_eq_nil_iff]
    intro r hr
    have := h2 r hr
    simp only [beq_iff_eq]
    omega
  refine ⟨?_, ?_, ?_, ?_⟩
  · intro p hp
    simp only [Store.add, List.mem_append, List.mem_singleton] at hp ⊢
    rcases hp with hp | hp
    · have := h1 p hp
      omega
    · subst hp
      simp
  · intro r hr
    have := h2 r hr
    simp only [Store.add] at hr ⊢
    omega
  · simp only [Store.add, List.map_append, List.map_cons, List.map_nil]
    rw [List.nodup_append]
    refine ⟨h3, List.nodup_singleton _, ?_⟩
    intro a ha hb
    simp only [List.mem_singleton] at hb
    subst hb
    simp only [List.mem_map] at ha
    obtain ⟨q, hq, hqa⟩ := ha
    have := h1 q hq
    omega
  · intro p hp
    simp only [Store.add, List.mem_append, List.mem_singleton] at hp
    have himp : ∀ j, (s.add data).1.impressionsOf j = s.impressionsOf j := fun j => rfl
    rw [himp]
    rcases hp with hp | hp
    · exact h4 p hp
    · subst hp
      simp [h0, hnone]

/-- Every call leaves the store as it was, or performs one field update that does not
touch `impressionCount`, or the impression transaction on an existing prayer, or adds
one prayer with `impressionCount` 0. -/
theorem step_cases (cfg : Config) (s : Store) (op : Op) :
    step cfg s op = s ∨
    (∃ i f, (∀ d : Prayer, (f d).impressionCount = d.impressionCount) ∧
      s.update i f = some (step cfg s op)) ∨
    (∃ i imp d, s.get i = some d ∧ impressionTransaction s i imp = some (step cfg s op)) ∨
    (∃ data : Prayer, data.impressionCount = 0 ∧ step cfg s op = (s.add data).1) := by
  cases op with
  | createPrayer now uid body =>
    simp only [step, createPrayer]
    split
    · exact Or.inl rfl
    · split
      · exact Or.inl rfl
      · split
        · exact Or.inl rfl
        · exact Or.inr (Or.inr (Or.inr ⟨_, rfl, rfl⟩))
  | updatePrayer now id body =>
    simp only [step, updatePrayer]
    split
    · exact Or.inl rfl
    · split
      · exact Or.inl rfl
      · split
        · exact Or.inl rfl
        · split
          · exact Or.inl rfl
          · next s' hu => exact Or.inr (Or.inl ⟨id, _, by intro _; rfl, hu⟩)
  | closePrayer now uid id =>
    simp only [step, closePrayer]
    split
    · exact Or.inl rfl
    · split
      · exact Or.inl rfl
      · split
        · exact Or.inl rfl
        · next s' hu => exact Or.inr (Or.inl ⟨id, _, by intro _; rfl, hu⟩)
  | addParticipants uid id body =>
    simp only [step, addParticipants]
    split
    · exact Or.inl rfl
    · split
      · exact Or.inl rfl
      · split
        · exact Or.inl rfl
        · split
          · exact Or.inl rfl
          · next s' hu => exact Or.inr (Or.inl ⟨id, _, by intro _; rfl, hu⟩)
  | removeParticipants uid id body =>
    simp only [step, removeParticipants]
    split
    · exact Or.inl rfl
    · split
      · exact Or.inl rfl
      · split
        · exact Or.inl rfl
        · split
          · exact Or.inl rfl
          · next s' hu => exact Or.inr (Or.inl ⟨id, _, by intro _; rfl, hu⟩)
  | addImpression now uid id content =>
    simp only [step, addImpression]
    split
    · exact Or.inl rfl
    · next d hd =>
      split
      · exact Or.inl rfl
      · split
        · exact Or.inl rfl
        · split
          · exact Or.inl rfl
          · next s' hu => exact Or.inr (Or.inr (Or.inl ⟨id, _, d, hd, hu⟩))
  | closePrayerAutomatically now id =>
    simp only [step, closePrayerAutomatically]
    split
    · exact Or.inl rfl
    · split
      · exact Or.inl rfl
      · next s' hu => exact Or.inr (Or.inl ⟨id, _, by intro _; rfl, hu⟩)

theorem consistent_step (cfg : Config) (s : Store) (op : Op) (hc : s.Consistent) :
    (step cfg s op).Consistent := by
  rcases step_cases cfg s op with h | ⟨i, f, hf, h⟩ | ⟨i, imp, d, hg, h⟩ | ⟨data, h0, h⟩
  · rw [h]; exact hc
  · exact consistent_update s _ i f hf h hc
  · exact consistent_transaction s _ i imp d hg h hc
  · rw [h]; exact consistent_add s data h0 hc

theorem consistent_run (cfg : Config) (ops : List Op) (s : Store) (hc : s.Consistent) :
    (run cfg s ops).Consistent := by
  induction ops generalizing s with
  | nil => exact hc
  | cons op ops ih => exact ih (step cfg s op) (consistent_step cfg s op hc)

/-- A call never removes a prayer and never lowers its `impressionCount`. -/
theorem step_count_mono (cfg : Config) (s : Store) (op : Op) (i : Nat) (d : Prayer)
    (hd : s.get i = some d) :
    ∃ d', (step cfg s op).get i = some d' ∧ d.impressionCount ≤ d'.impressionCount := by
  rcases step_cases cfg s op with h | ⟨k, f, hf, h⟩ | ⟨k, imp, e, hg, h⟩ | ⟨data, h0, h⟩
  · rw [h]; exact ⟨d, hd, le_refl _⟩
  · have hg := get_of_update s _ k i f h
    by_cases hik : i = k
    · refine ⟨f d, ?_, by rw [hf]⟩
      rw [hg, if_pos hik, hd]; rfl
    · exact ⟨d, by rw [hg, if_neg hik, hd], le_refl _⟩
  · obtain ⟨s', hs', hget, -⟩ := impressionTransaction_spec s k imp e hg
    rw [hs'] at h
    simp only [Option.some.injEq] at h
    rw [← h]
    by_cases hik : i = k
    · refine ⟨{ d with impressionCount := d.impressionCount + 1 }, ?_, Nat.le_succ _⟩
      rw [hget, if_pos hik, hd]; rfl
    · exact ⟨d, by rw [hget, if_neg hik, hd], le_refl _⟩
  · rw [h]
    refine ⟨d, ?_, le_refl _⟩
    simp only [Store.add, Store.get] at hd ⊢
    rw [List.lookup_append, hd]
    rfl

/-! ## Who changes the participants -/

theorem participants_of_update (s s' : Store) (k i : Nat) (f : Prayer → Prayer)
    (d d' : Prayer) (hf : ∀ e : Prayer, (f e).participants = e.participants)
    (hu : s.update k f = some s') (h : s.get i = some d) (h' : s'.get i = some d') :
    d'.participants = d.participants := by
  rw [get_of_update s s' k i f hu, h] at h'
  by_cases hik : i = k
  · simp only [hik, if_true, Option.map_some', Option.some.injEq] at h'
    rw [← h', hf]
  · simp only [hik, if_false, Option.some.injEq] at h'
    rw [h']

/-- A call that changes the stored participants of a prayer is an `addParticipants`
or a `removeParticipants` on that prayer by its creator. -/
theorem step_participants (cfg : Config) (s : Store) (op : Op) (i : Nat) (d d' : Prayer)
    (h : s.get i = some d) (h' : (step cfg s op).get i = some d') :
    d'.participants = d.participants ∨
    (∃ b, op = .addParticipants d.creatorId i b) ∨
    (∃ b, op = .removeParticipants d.creatorId i b) := by
  have same : ∀ {t : Store}, t = s → t.get i = some d' → d'.participants = d.participants := by
    intro t ht hg
    rw [ht, h] at hg
    simp only [Option.some.injEq] at hg
    rw [hg]
  cases op with
  | createPrayer now uid body =>
    left
    simp only [step, createPrayer] at h'
    split at h'
    · exact same rfl h'
    · split at h'
      · exact same rfl h'
      · split at h'
        · exact same rfl h'
        · simp only [Store.add, Store.get] at h' h
          rw [List.lookup_append, h] at h'
          have h2 : some d = some d' := h'
          simp only [Option.some.injEq] at h2
          rw [← h2]
  | updatePrayer now id body =>
    left
    simp only [step, updatePrayer] at h'
    split at h'
    · exact same rfl h'
    · split at h'
      · exact same rfl h'
      · split at h'
        · exact same rfl h'
        · split at h'
          · exact same rfl h'
          · next s' hu => exact participants_of_update s s' id i _ d d' (by intro _; rfl) hu h h'
  | closePrayer now uid id =>
    left
    simp only [step, closePrayer] at h'
    split at h'
    · exact same rfl h'
    · split at h'
      · exact same rfl h'
      · split at h'
        · exact same rfl h'
        · next s' hu => exact participants_of_update s s' id i _ d d' (by intro _; rfl) hu h h'
  | addParticipants uid id body =>
    by_cases hik : i = id
    · subst hik
      simp only [step, addParticipants, h] at h'
      by_cases hc : d.creatorId = uid
      · exact Or.inr (Or.inl ⟨body, by rw [hc]⟩)
      · simp only [ne_eq, hc, not_false_eq_true, if_true] at h'
        exact Or.inl (same rfl h')
    · left
      simp only [step, addParticipants] at h'
      split at h'
      · exact same rfl h'
      · split at h'
        · exact same rfl h'
        · split at h'
          · exact same rfl h'
          · split at h'
            · exact same rfl h'
            · next s' hu =>
              rw [get_of_update s s' id i _ hu, if_neg hik, h] at h'
              simp only [Option.some.injEq] at h'
              rw [h']
  | removeParticipants uid id body =>
    by_cases hik : i = id
    · subst hik
      simp only [step, removeParticipants, h] at h'
      by_cases hc : d.creatorId = uid
      · exact Or.inr (Or.inr ⟨body, by rw [hc]⟩)
      · simp only [ne_eq, hc, not_false_eq_true, if_true] at h'
        exact Or.inl (same rfl h')
    · left
      simp only [step, removeParticipants] at h'
      split at h'
      · exact same rfl h'
      · split at h'
        · exact same rfl h'
        · split at h'
          · exact same rfl h'
          · split at h'
            · exact same rfl h'
            · next s' hu =>
              rw [get_of_update s s' id i _ hu, if_neg hik, h] at h'
              simp only [Option.some.injEq] at h'
              rw [h']
  | addImpression now uid id content =>
    left
    simp only [step, addImpression] at h'
    split at h'
    · exact same rfl h'
    · next e he =>
      split at h'
      · exact same rfl h'
      · split at h'
        · exact same rfl h'
        · split at h'
          · exact same rfl h'
          · next s' hu =>
            obtain ⟨t, ht, hget, -⟩ := impressionTransaction_spec s id
              { content := content, userId := uid, createdAt := now } e he
            rw [ht] at hu
            simp only [Option.some.injEq] at hu
            subst hu
            rw [hget i, h] at h'
            by_cases hik : i = id
            · simp only [hik, if_true, Option.map_some', Option.some.injEq] at h'
              rw [← h']
            · simp only [hik, if_false, Option.some.injEq] at h'
              rw [h']
  | closePrayerAutomatically now id =>
    left
    simp only [step, closePrayerAutomatically] at h'
    split at h'
    · exact same rfl h'
    · split at h'
      · exact same rfl h'
      · next s' hu => exact participants_of_update s s' id i _ d d' (by intro _; rfl) hu h h'

/-! ## getPrayer -/

/-- C1: for a stored prayer `d` with id `i`, `getPrayer` answers 200; when `d` is
hidden and open the body holds exactly `id`, `title`, `description`, `prayerType`,
`impressionCount` and `isOpen` of `d` and none of `creatorId`, `participants`,
`prayerAccess`, `endDateTime`, `createdAt`, `updatedAt`, `closedAt`; for every other
stored prayer the body is `id` together with every stored field of `d`. -/
theorem getPrayer_redacts_hidden_open (s : Store) (i : Nat) (d : Prayer)
    (h : s.get i = some d) :
    (getPrayer s i).res.status = 200 ∧
    (d.prayerType = some (.str "hidden") ∧ d.isOpen = true →
      (getPrayer s i).res.body = .prayer
        { id := i, title := d.title, description := d.description,
          prayerType := d.prayerType, impressionCount := some d.impressionCount,
          isOpen := some d.isOpen,
          creatorId := none, participants := none, prayerAccess := none,
          endDateTime := none, createdAt := none, updatedAt := none, closedAt := none }) ∧
    (¬ (d.prayerType = some (.str "hidden") ∧ d.isOpen = true) →
      (getPrayer s i).res.body = .prayer
        { id := i, title := d.title, description := d.description,
          prayerType := d.prayerType, impressionCount := some d.impressionCount,
          isOpen := some d.isOpen,
          creatorId := some d.creatorId, participants := some d.participants,
          prayerAccess := d.prayerAccess, endDateTime := d.endDateTime,
          createdAt := some d.createdAt, updatedAt := d.updatedAt,
          closedAt := d.closedAt }) := by
  refine ⟨?_, ?_, ?_⟩
  · unfold getPrayer
    simp only [h]
    split <;> rfl
  · intro hc
    unfold getPrayer
    simp only [h, hc, and_self, if_true]
    rfl
  · intro hc
    unfold getPrayer
    simp only [h, hc, if_false]
    rfl

theorem getPrayer_redacts_hidden_open_witness :
    sampleStore.get 0 = some sampleHidden ∧
    (sampleHidden.prayerType = some (.str "hidden") ∧ sampleHidden.isOpen = true) ∧
    (getPrayer sampleStore 0).res.body = .prayer
      { id := 0, title := some (.str "Healing"), description := some (.str "for a friend"),
        prayerType := some (.str "hidden"), impressionCount := some 1,
        isOpen := some true,
        creatorId := none, participants := none, prayerAccess := none,
        endDateTime := none, createdAt := none, updatedAt := none, closedAt := none } :=
  ⟨by decide, by decide,
    (getPrayer_redacts_hidden_open sampleStore 0 sampleHidden (by decide)).2.1 (by decide)⟩

/-! ## createPrayer -/

/-- C2: a create request whose `prayerType` is not `"hidden"` or `"visible"`, or whose
`prayerAccess` is not `"private"` or `"public"`, is answered 400, leaves the store
unchanged and schedules no timer; a request with both values in their sets is not
answered 400. -/
theorem createPrayer_rejects_invalid_enum (cfg : Config) (s : Store) (now : Nat)
    (uid : String) (body : CreateBody) :
    ((body.prayerType ≠ some (.str "hidden") ∧ body.prayerType ≠ some (.str "visible")) ∨
      (body.prayerAccess ≠ some (.str "private") ∧ body.prayerAccess ≠ some (.str "public")) →
      (createPrayer cfg s now uid body).res.status = 400 ∧
      (createPrayer cfg s now uid body).store = s ∧
      (createPrayer cfg s now uid body).timers = []) ∧
    ((body.prayerType = some (.str "hidden") ∨ body.prayerType = some (.str "visible")) ∧
      (body.prayerAccess = some (.str "private") ∨ body.prayerAccess = some (.str "public")) →
      (createPrayer cfg s now uid body).res.status ≠ 400) := by
  have hT : includes VALID_PRAYER_TYPES body.prayerType = true ↔
      (body.prayerType = some (.str "hidden") ∨ body.prayerType = some (.str "visible")) := by
    rcases hp : body.prayerType with _ | v
    · simp [includes]
    · cases v <;> simp [includes, VALID_PRAYER_TYPES]
  have hA : includes VALID_PRAYER_ACCESS_MODIFIERS body.prayerAccess = true ↔
      (body.prayerAccess = some (.str "private") ∨
        body.prayerAccess = some (.str "public")) := by
    rcases hp : body.prayerAccess with _ | v
    · simp [includes]
    · cases v <;> simp [includes, VALID_PRAYER_ACCESS_MODIFIERS]
  constructor
  · intro h
    unfold createPrayer
    by_cases hT' : includes VALID_PRAYER_TYPES body.prayerType = true
    · have hA' : ¬ includes VALID_PRAYER_ACCESS_MODIFIERS body.prayerAccess = true := by
        rw [hA]
        rcases h with h | h
        · exact absurd (hT.mp hT') (by tauto)
        · tauto
      simp [hT', hA', respond]
    · simp [hT', respond]
  · intro h
    have hT' := hT.mpr h.1
    have hA' := hA.mpr h.2
    unfold createPrayer
    simp only [hT', hA', Bool.not_true, Bool.false_eq_true, if_false]
    split
    · simp [respond]
    · simp [Store.add]

theorem createPrayer_rejects_invalid_enum_witness :
    ((sampleCreate.prayerType ≠ some (.str "hidden") ∧
        sampleCreate.prayerType ≠ some (.str "visible")) ∨
      (sampleCreate.prayerAccess ≠ some (.str "private") ∧
        sampleCreate.prayerAccess ≠ some (.str "public"))) ∧
    (createPrayer ⟨true, false⟩ sampleStore 7 "dave" sampleCreate).res.status = 400 ∧
    (createPrayer ⟨true, false⟩ sampleStore 7 "dave" sampleCreate).store = sampleStore ∧
    (createPrayer ⟨true, false⟩ sampleStore 7 "dave" sampleCreate).timers = [] :=
  ⟨by decide,
    (createPrayer_rejects_invalid_enum ⟨true, false⟩ sampleStore 7 "dave" sampleCreate).1 (by decide)⟩

/-! ## closePrayer -/

/-- C3: `closePrayer` answers 404 and leaves the store unchanged when the prayer does
not exist; answers 403, leaves the store unchanged and notifies nobody when the
requester is not the creator; and otherwise answers 200, sets `isOpen` to false and
stamps `closedAt` while every other field, every other prayer and all impressions
stay as they were, sends exactly one `notifyPrayerClosed` for the id, and a
following `getPrayer` shows `isOpen = false`. -/
theorem closePrayer_owner_only (s : Store) (now : Nat) (uid : String) (i : Nat) :
    (s.get i = none →
      (closePrayer s now uid i).res.status = 404 ∧ (closePrayer s now uid i).store = s) ∧
    (∀ d, s.get i = some d → d.creatorId ≠ uid →
      (closePrayer s now uid i).res.status = 403 ∧ (closePrayer s now uid i).store = s ∧
        (closePrayer s now uid i).notifications = []) ∧
    (∀ d, s.get i = some d → d.creatorId = uid →
      (closePrayer s now uid i).res.status = 200 ∧
      (closePrayer s now uid i).store.get i =
        some { d with isOpen := false, closedAt := some now } ∧
      (∀ j, j ≠ i → (closePrayer s now uid i).store.get j = s.get j) ∧
      (closePrayer s now uid i).store.impressions = s.impressions ∧
      (closePrayer s now uid i).store.prayers.map Prod.fst = s.prayers.map Prod.fst ∧
      (closePrayer s now uid i).notifications = [.notifyPrayerClosed i] ∧
      ∃ j, (getPrayer (closePrayer s now uid i).store i).res = { status := 200, body := .prayer j } ∧
        j.isOpen = some false) := by
  refine ⟨?_, ?_, ?_⟩
  · intro h
    simp [closePrayer, h, respond]
  · intro d h hne
    simp [closePrayer, h, hne, respond]
  · intro d h he
    obtain ⟨s', hu⟩ : ∃ s', s.update i
        (fun d => { d with isOpen := false, closedAt := some now }) = some s' :=
      ⟨_, update_eq_some s i _ d h⟩
    have hg := fun j => get_of_update s s' i j _ hu
    have hi := impressions_of_update s s' i _ hu
    have hout : closePrayer s now uid i =
        { store := s'
          res := { status := 200, body := .message "Prayer closed successfully" }
          notifications := [.notifyPrayerClosed i]
          timers := [] } := by
      unfold closePrayer
      simp only [h, he, ne_eq, not_true_eq_false, if_false, hu]
    have hgi : s'.get i = some { d with isOpen := false, closedAt := some now } := by
      have := hg i
      simpa [h] using this
    rw [hout]
    refine ⟨rfl, hgi, ?_, hi.1, hi.2.2, rfl, ?_⟩
    · intro j hj
      have := hg j
      simpa [hj] using this
    · unfold getPrayer
      simp only [hgi]
      simp only [Bool.false_eq_true, and_false, if_false]
      exact ⟨_, rfl, rfl⟩

theorem closePrayer_owner_only_witness :
    sampleStore.get 0 = some sampleHidden ∧ sampleHidden.creatorId = "alice" ∧
    sampleStore.get 1 = some sampleVisible ∧ sampleVisible.creatorId ≠ "alice" ∧
    sampleStore.get 5 = none ∧
    (closePrayer sampleStore 9 "alice" 0).res.status = 200 ∧
    (closePrayer sampleStore 9 "alice" 0).store.get 0 =
      some { sampleHidden with isOpen := false, closedAt := some 9 } ∧
    (closePrayer sampleStore 9 "alice" 0).notifications = [.notifyPrayerClosed 0] ∧
    (closePrayer sampleStore 9 "alice" 1).res.status = 403 ∧
    (closePrayer sampleStore 9 "alice" 5).res.status = 404 :=
  ⟨by decide, by decide, by decide, by decide, by decide,
    ((closePrayer_owner_only sampleStore 9 "alice" 0).2.2 sampleHidden
      (by decide) (by decide)).1,
    ((closePrayer_owner_only sampleStore 9 "alice" 0).2.2 sampleHidden
      (by decide) (by decide)).2.1,
    ((closePrayer_owner_only sampleStore 9 "alice" 0).2.2 sampleHidden
      (by decide) (by decide)).2.2.2.2.2.1,
    ((closePrayer_owner_only sampleStore 9 "alice" 1).2.1 sampleVisible
      (by decide) (by decide)).1,
    ((closePrayer_owner_only sampleStore 9 "alice" 5).1 (by decide)).1⟩

/-! ## addParticipants, removeParticipants: the ownership check -/

/-- C4: for an existing prayer and a requester who is not its creator,
`addParticipants` and `removeParticipants` each answer 403, leave the whole store
(so `participants.users` and `participants.groups`) unchanged and send no
notification; and any call after which the prayer's stored participants differ is an
`addParticipants` or `removeParticipants` on that prayer by its creator. -/
theorem participants_owner_only (cfg : Config) (s : Store) (uid : String) (i : Nat)
    (body : ParticipantsBody) (d : Prayer) (h : s.get i = some d) (hne : d.creatorId ≠ uid) :
    ((addParticipants cfg s uid i body).res.status = 403 ∧
      (addParticipants cfg s uid i body).store = s ∧
      (addParticipants cfg s uid i body).notifications = []) ∧
    ((removeParticipants cfg s uid i body).res.status = 403 ∧
      (removeParticipants cfg s uid i body).store = s ∧
      (removeParticipants cfg s uid i body).notifications = []) ∧
    (∀ op d', (step cfg s op).get i = some d' → d'.participants ≠ d.participants →
      (∃ b, op = .addParticipants d.creatorId i b) ∨
      (∃ b, op = .removeParticipants d.creatorId i b)) := by
  refine ⟨?_, ?_, ?_⟩
  · simp [addParticipants, h, hne, respond]
  · simp [removeParticipants, h, hne, respond]
  · intro op d' h' hp
    rcases step_participants cfg s op i d d' h h' with hs | hs
    · exact absurd hs hp
    · exact hs

theorem participants_owner_only_witness :
    sampleStore.get 0 = some sampleHidden ∧ sampleHidden.creatorId ≠ "mallory" ∧
    ((addParticipants ⟨false, true⟩ sampleStore "mallory" 0
        ⟨some ["mallory"], some ["choir"]⟩).res.status = 403 ∧
      (addParticipants ⟨false, true⟩ sampleStore "mallory" 0
        ⟨some ["mallory"], some ["choir"]⟩).store = sampleStore ∧
      (addParticipants ⟨false, true⟩ sampleStore "mallory" 0
        ⟨some ["mallory"], some ["choir"]⟩).notifications = []) ∧
    ((removeParticipants ⟨false, true⟩ sampleStore "mallory" 0
        ⟨some ["mallory"], some ["choir"]⟩).res.status = 403 ∧
      (removeParticipants ⟨false, true⟩ sampleStore "mallory" 0
        ⟨some ["mallory"], some ["choir"]⟩).store = sampleStore ∧
      (removeParticipants ⟨false, true⟩ sampleStore "mallory" 0
        ⟨some ["mallory"], some ["choir"]⟩).notifications = []) :=
  ⟨by decide, by decide,
    (participants_owner_only ⟨false, true⟩ sampleStore "mallory" 0
      ⟨some ["mallory"], some ["choir"]⟩ sampleHidden (by decide) (by decide)).1,
    (participants_owner_only ⟨false, true⟩ sampleStore "mallory" 0
      ⟨some ["mallory"], some ["choir"]⟩ sampleHidden (by decide) (by decide)).2.1⟩

/-! ## addImpression -/

/-- C5: `addImpression` answers 404 when the prayer is absent and 400 when it exists
with `isOpen` false, in both cases leaving the store (so `impressionCount` and the
impressions) unchanged; when the prayer exists with `isOpen` true it answers 201,
the prayer's `impressionCount` is its previous value plus 1 with no other field
changed, the impressions under the prayer are the earlier ones followed by exactly
one new record with the given content and the requester's `userId`, and every other
prayer and the impressions under it are unchanged. -/
theorem addImpression_inserts_and_counts (cfg : Config) (s : Store) (now : Nat)
    (uid : String) (i : Nat) (content : Val) :
    (s.get i = none →
      (addImpression cfg s now uid i (some content)).res.status = 404 ∧
      (addImpression cfg s now uid i (some content)).store = s) ∧
    (∀ d, s.get i = some d → d.isOpen = false →
      (addImpression cfg s now uid i (some content)).res.status = 400 ∧
      (addImpression cfg s now uid i (some content)).store = s) ∧
    (∀ d, s.get i = some d → d.isOpen = true →
      (addImpression cfg s now uid i (some content)).res.status = 201 ∧
      (addImpression cfg s now uid i (some content)).store.get i =
        some { d with impressionCount := d.impressionCount + 1 } ∧
      (addImpression cfg s now uid i (some content)).store.impressionsOf i =
        s.impressionsOf i ++
          [{ prayerId := i, id := s.nextId,
             data := { content := some content, userId := uid, createdAt := now } }] ∧
      (∀ j, j ≠ i →
        (addImpression cfg s now uid i (some content)).store.get j = s.get j ∧
        (addImpression cfg s now uid i (some content)).store.impressionsOf j =
          s.impressionsOf j)) := by
  refine ⟨?_, ?_, ?_⟩
  · intro h
    simp [addImpression, h, respond]
  · intro d h hc
    simp [addImpression, h, hc, respond]
  · intro d h ho
    obtain ⟨s', ht, hg, himp, -, -⟩ := impressionTransaction_spec s i
      { content := some content, userId := uid, createdAt := now } d h
    have hout : (addImpression cfg s now uid i (some content)).res.status = 201 ∧
        (addImpression cfg s now uid i (some content)).store = s' := by
      unfold addImpression
      simp only [h, ho, Bool.not_true, Bool.false_eq_true, if_false, rejectsUndefined,
        List.any_cons, Option.isNone_some, List.any_nil, Bool.or_self, Bool.and_false, ht]
      exact ⟨trivial, trivial⟩
    obtain ⟨hst, hstore⟩ := hout
    rw [hstore]
    refine ⟨hst, ?_, ?_, ?_⟩
    · rw [hg i, if_pos rfl, h]
      rfl
    · simp [Store.impressionsOf, himp, List.filter_append]
    · intro j hj
      constructor
      · rw [hg j, if_neg hj]
      · have hji : ¬ i = j := fun e => hj e.symm
        simp [Store.impressionsOf, himp, List.filter_append, hji]

theorem addImpression_inserts_and_counts_witness :
    sampleStore.get 0 = some sampleHidden ∧ sampleHidden.isOpen = true ∧
    sampleStore.get 5 = none ∧
    (addImpression ⟨false, true⟩ sampleStore 9 "carol" 0 (some (.str "peace"))).res.status = 201 ∧
    (addImpression ⟨false, true⟩ sampleStore 9 "carol" 0 (some (.str "peace"))).store.get 0 =
      some { sampleHidden with impressionCount := 2 } ∧
    (addImpression ⟨false, true⟩ sampleStore 9 "carol" 0 (some (.str "peace"))).store.impressionsOf 0 =
      [sampleImpression,
        { prayerId := 0, id := 3,
          data := { content := some (.str "peace"), userId := "carol", createdAt := 9 } }] ∧
    (addImpression ⟨false, true⟩ sampleStore 9 "carol" 5 (some (.str "peace"))).res.status = 404 :=
  ⟨by decide, by decide, by decide,
    ((addImpression_inserts_and_counts ⟨false, true⟩ sampleStore 9 "carol" 0 (.str "peace")).2.2
      sampleHidden (by decide) (by decide)).1,
    ((addImpression_inserts_and_counts ⟨false, true⟩ sampleStore 9 "carol" 0 (.str "peace")).2.2
      sampleHidden (by decide) (by decide)).2.1,
    ((addImpression_inserts_and_counts ⟨false, true⟩ sampleStore 9 "carol" 0 (.str "peace")).2.2
      sampleHidden (by decide) (by decide)).2.2.1,
    ((addImpression_inserts_and_counts ⟨false, true⟩ sampleStore 9 "carol" 5 (.str "peace")).1
      (by decide)).1⟩

/-! ## impressionCount -/

/-- C6: in every store reached from the empty store by a sequence of `createPrayer`,
`updatePrayer`, `closePrayer`, `addParticipants`, `removeParticipants`,
`addImpression` and `closePrayerAutomatically` calls, each existing prayer's
`impressionCount` is the number of impressions stored under it; and a further call
keeps every existing prayer and does not lower its `impressionCount`. -/
theorem impressionCount_eq_number_of_impressions (cfg : Config) (ops : List Op) :
    (∀ i d, (run cfg Store.empty ops).get i = some d →
      d.impressionCount = ((run cfg Store.empty ops).impressionsOf i).length) ∧
    (∀ op i d, (run cfg Store.empty ops).get i = some d →
      ∃ d', (step cfg (run cfg Store.empty ops) op).get i = some d' ∧
        d.impressionCount ≤ d'.impressionCount) := by
  constructor
  · intro i d h
    have hc := consistent_run cfg ops Store.empty consistent_empty
    exact hc.2.2.2 (i, d) (mem_of_get _ i d h)
  · intro op i d h
    exact step_count_mono cfg _ op i d h

theorem impressionCount_eq_number_of_impressions_witness :
    (run ⟨true, false⟩ Store.empty sampleOps).get 0 = some sampleRunPrayer ∧
    sampleRunPrayer.impressionCount =
      ((run ⟨true, false⟩ Store.empty sampleOps).impressionsOf 0).length ∧
    ∃ d', (step ⟨true, false⟩ (run ⟨true, false⟩ Store.empty sampleOps)
        (.updatePrayer 5 0 ⟨none, none, none, some (.str "private"), none⟩)).get 0 = some d' ∧
      sampleRunPrayer.impressionCount ≤ d'.impressionCount :=
  ⟨by decide,
    (impressionCount_eq_number_of_impressions ⟨true, false⟩ sampleOps).1 0 sampleRunPrayer (by decide),
    (impressionCount_eq_number_of_impressions ⟨true, false⟩ sampleOps).2
      (.updatePrayer 5 0 ⟨none, none, none, some (.str "private"), none⟩) 0 sampleRunPrayer
      (by decide)⟩

/-! ## addParticipants twice -/

/-- C7, as stated, fails on a prayer created with a repeated user id: `createPrayer`
stores `["bob", "bob"]` as it came, and after `addParticipants` was performed twice
with `users = ["bob"]` by the creator the added id `"bob"` occurs twice, not once. -/
theorem addParticipants_added_id_twice :
    sampleCreated.get 0 =
      some { title := some (.str "Rain"), description := some (.str "for the fields"),
             endDateTime := some (.num 500), prayerAccess := some (.str "public"),
             creatorId := "alice", participants := { users := ["bob", "bob"], groups := [] },
             prayerType := some (.str "hidden"), createdAt := 1, updatedAt := none,
             closedAt := none, isOpen := true, impressionCount := 0 } ∧
    (addParticipants ⟨false, true⟩ sampleCreated "alice" 0
      ⟨some ["bob"], some ["choir"]⟩).res.status = 200 ∧
    (addParticipants ⟨false, true⟩
      (addParticipants ⟨false, true⟩ sampleCreated "alice" 0
        ⟨some ["bob"], some ["choir"]⟩).store
      "alice" 0 ⟨some ["bob"], some ["choir"]⟩).res.status = 200 ∧
    ((addParticipants ⟨false, true⟩
      (addParticipants ⟨false, true⟩ sampleCreated "alice" 0
        ⟨some ["bob"], some ["choir"]⟩).store
      "alice" 0 ⟨some ["bob"], some ["choir"]⟩).store.get 0).map
        (fun d => d.participants.users.count "bob") = some 2 := by
  decide

/-- C7 (amended): for an existing prayer and its creator, performing `addParticipants`
twice with the same `users` and `groups` leaves the store a single call leaves; a call
keeps the stored `participants.users` as a prefix (nothing removed or reordered) with
every id stored before occurring as often as before, likewise for
`participants.groups`; and when `users` and `groups` are both non-empty the call is
answered 200, `participants.users` and `participants.groups` hold exactly the ids
stored before and the ids added, and every added id that was not stored before occurs
exactly once. -/
theorem addParticipants_idempotent (cfg : Config) (s : Store) (uid : String) (i : Nat)
    (body : ParticipantsBody) (d : Prayer) (h : s.get i = some d) (hc : d.creatorId = uid) :
    (addParticipants cfg (addParticipants cfg s uid i body).store uid i body).store =
      (addParticipants cfg s uid i body).store ∧
    ∃ d1, (addParticipants cfg s uid i body).store.get i = some d1 ∧
      d.participants.users <+: d1.participants.users ∧
      (∀ u, u ∈ d.participants.users →
        d1.participants.users.count u = d.participants.users.count u) ∧
      d.participants.groups <+: d1.participants.groups ∧
      (∀ g, g ∈ d.participants.groups →
        d1.participants.groups.count g = d.participants.groups.count g) ∧
      (body.users.getD [] ≠ [] → body.groups.getD [] ≠ [] →
        (addParticipants cfg s uid i body).res.status = 200 ∧
        (∀ u, u ∈ d1.participants.users ↔
          u ∈ d.participants.users ∨ u ∈ body.users.getD []) ∧
        (∀ u, u ∈ body.users.getD [] → u ∉ d.participants.users →
          d1.participants.users.count u = 1) ∧
        (∀ g, g ∈ d1.participants.groups ↔
          g ∈ d.participants.groups ∨ g ∈ body.groups.getD []) ∧
        (∀ g, g ∈ body.groups.getD [] → g ∉ d.participants.groups →
          d1.participants.groups.count g = 1)) := by
  by_cases hr : (rejectsEmpty cfg (body.users.getD []) ||
      rejectsEmpty cfg (body.groups.getD [])) = true
  · have hout : addParticipants cfg s uid i body =
        respond s 500 (.error "Failed to add participants") := by
      unfold addParticipants
      simp only [h, hc, ne_eq, not_true_eq_false, if_false, hr, if_true]
    rw [hout]
    refine ⟨by simp only [respond]; rw [hout]; rfl, d, h, List.prefix_refl _, fun _ _ => rfl,
      List.prefix_refl _, fun _ _ => rfl, ?_⟩
    intro hu hg
    simp only [rejectsEmpty, Bool.or_eq_true, Bool.and_eq_true, List.isEmpty_iff] at hr
    rcases hr with hr | hr
    · exact absurd hr.2 hu
    · exact absurd hr.2 hg
  · obtain ⟨s1, hu⟩ : ∃ s1, s.update i (fun d =>
        { d with participants :=
            { users := arrayUnion d.participants.users (body.users.getD [])
              groups := arrayUnion d.participants.groups (body.groups.getD []) } })
        = some s1 := ⟨_, update_eq_some s i _ d h⟩
    have hout : addParticipants cfg s uid i body =
        { store := s1
          res := { status := 200, body := .message "Participants added successfully" }
          notifications := (body.users.getD []).map
            (fun userId => .notifyUserAddedToPrayer userId i)
          timers := [] } := by
      unfold addParticipants
      simp only [h, hc, ne_eq, not_true_eq_false, if_false, hr, hu, Bool.false_eq_true]
    have hg1 : s1.get i = some
        { d with participants :=
            { users := arrayUnion d.participants.users (body.users.getD [])
              groups := arrayUnion d.participants.groups (body.groups.getD []) } } := by
      have := get_of_update s s1 i i _ hu
      simpa [h] using this
    obtain ⟨s2, hu2⟩ : ∃ s2, s1.update i (fun d =>
        { d with participants :=
            { users := arrayUnion d.participants.users (body.users.getD [])
              groups := arrayUnion d.participants.groups (body.groups.getD []) } })
        = some s2 := ⟨_, update_eq_some s1 i _ _ hg1⟩
    have hout2 : (addParticipants cfg s1 uid i body).store = s2 := by
      unfold addParticipants
      simp only [hg1, hc, ne_eq, not_true_eq_false, if_false, hr, hu2, Bool.false_eq_true]
    have hs1 := update_shape s s1 i _ hu
    have hs2 := update_shape s1 s2 i _ hu2
    rw [hout]
    simp only []
    rw [hout2]
    constructor
    · rw [hs2]
      conv_rhs => rw [hs1]
      rw [hs1]
      simp only [List.map_map, Store.mk.injEq, and_true]
      apply List.map_congr_left
      intro p _
      by_cases hp : p.1 = i
      · simp [hp, arrayUnion_idempotent]
      · simp [hp]
    · refine ⟨_, hg1, prefix_arrayUnion _ _, ?_, prefix_arrayUnion _ _, ?_,
        fun _ _ => ⟨trivial, ?_, ?_, ?_, ?_⟩⟩
      · intro u hu'
        show (arrayUnion _ _).count u = _
        rw [count_arrayUnion, if_pos hu']
      · intro g hg'
        show (arrayUnion _ _).count g = _
        rw [count_arrayUnion, if_pos hg']
      · intro u; exact mem_arrayUnion u _ _
      · intro u hu' hnu
        show (arrayUnion _ _).count u = _
        rw [count_arrayUnion, if_neg hnu, if_pos hu']
      · intro g; exact mem_arrayUnion g _ _
      · intro g hg' hng
        show (arrayUnion _ _).count g = _
        rw [count_arrayUnion, if_neg hng, if_pos hg']

theorem addParticipants_idempotent_witness :
    sampleStore.get 0 = some sampleHidden ∧ sampleHidden.creatorId = "alice" ∧
    (addParticipants ⟨false, true⟩ (addParticipants ⟨false, true⟩ sampleStore "alice" 0
        ⟨some ["dan", "bob", "dan"], some ["choir"]⟩).store "alice" 0
        ⟨some ["dan", "bob", "dan"], some ["choir"]⟩).store =
      (addParticipants ⟨false, true⟩ sampleStore "alice" 0
        ⟨some ["dan", "bob", "dan"], some ["choir"]⟩).store ∧
    ∃ d1, (addParticipants ⟨false, true⟩ sampleStore "alice" 0
        ⟨some ["dan", "bob", "dan"], some ["choir"]⟩).store.get 0 = some d1 ∧
      (addParticipants ⟨false, true⟩ sampleStore "alice" 0
        ⟨some ["dan", "bob", "dan"], some ["choir"]⟩).res.status = 200 ∧
      d1.participants.users.count "bob" = 1 ∧
      d1.participants.users.count "dan" = 1 ∧
      d1.participants.groups.count "choir" = 1 := by
  obtain ⟨hi, d1, hg, -, hk, -, -, hne⟩ :=
    addParticipants_idempotent ⟨false, true⟩ sampleStore "alice" 0
      ⟨some ["dan", "bob", "dan"], some ["choir"]⟩ sampleHidden (by decide) (by decide)
  obtain ⟨hst, -, hu, -, hgr⟩ := hne (by decide) (by decide)
  exact ⟨by decide, by decide, hi, d1, hg, hst,
    (hk "bob" (by decide)).trans (by decide),
    hu "dan" (by decide) (by decide), hgr "choir" (by decide) (by decide)⟩

/-! ## updatePrayer -/

/-- C8: for an existing prayer and an update request whose `prayerAccess` is valid and
whose `prayerType` is absent or valid, the prayer is still stored afterwards; each of
`title`, `description`, `endDateTime`, `prayerType` that the request does not supply
keeps its stored value; `isOpen`, `impressionCount`, `creatorId`, `participants`,
`createdAt` and `closedAt` are unchanged; every other prayer and all impressions are
unchanged; and when the update is answered 200 each supplied field holds the supplied
value and `updatedAt` is stamped, while any other answer is a 500 that left the store
as it was. -/
theorem updatePrayer_patches_supplied_only (cfg : Config) (s : Store) (now : Nat) (i : Nat)
    (body : UpdateBody) (d : Prayer) (h : s.get i = some d)
    (hA : body.prayerAccess = some (.str "private") ∨
      body.prayerAccess = some (.str "public"))
    (hT : body.prayerType = none ∨ body.prayerType = some (.str "hidden") ∨
      body.prayerType = some (.str "visible")) :
    ∃ d', (updatePrayer cfg s now i body).store.get i = some d' ∧
      (body.title = none → d'.title = d.title) ∧
      (body.description = none → d'.description = d.description) ∧
      (body.endDateTime = none → d'.endDateTime = d.endDateTime) ∧
      (body.prayerType = none → d'.prayerType = d.prayerType) ∧
      d'.isOpen = d.isOpen ∧ d'.impressionCount = d.impressionCount ∧
      d'.creatorId = d.creatorId ∧ d'.participants = d.participants ∧
      d'.createdAt = d.createdAt ∧ d'.closedAt = d.closedAt ∧
      (∀ j, j ≠ i → (updatePrayer cfg s now i body).store.get j = s.get j) ∧
      (updatePrayer cfg s now i body).store.impressions = s.impressions ∧
      (((updatePrayer cfg s now i body).res.status = 200 ∧
          (∀ v, body.title = some v → d'.title = some v) ∧
          (∀ v, body.description = some v → d'.description = some v) ∧
          (∀ v, body.endDateTime = some v → d'.endDateTime = some v) ∧
          (∀ v, body.prayerType = some v → d'.prayerType = some v) ∧
          d'.prayerAccess = body.prayerAccess ∧ d'.updatedAt = some now) ∨
        ((updatePrayer cfg s now i body).res.status = 500 ∧
          (updatePrayer cfg s now i body).store = s)) := by
  have hA' : includes VALID_PRAYER_ACCESS_MODIFIERS body.prayerAccess = true := by
    rcases hA with hA | hA <;> rw [hA] <;> decide
  have hT' : (truthy body.prayerType && !includes VALID_PRAYER_TYPES body.prayerType)
      = false := by
    rcases hT with hT | hT | hT <;> rw [hT] <;> decide
  by_cases hr : rejectsUndefined cfg [body.title, body.description, body.endDateTime,
      body.prayerAccess] = true
  · have hout : updatePrayer cfg s now i body =
        respond s 500 (.error "Failed to update prayer") := by
      unfold updatePrayer
      simp only [hT', hA', hr, Bool.not_true, Bool.false_eq_true, if_false, if_true]
    rw [hout]
    exact ⟨d, h, fun _ => rfl, fun _ => rfl, fun _ => rfl, fun _ => rfl, rfl, rfl, rfl, rfl,
      rfl, rfl, fun _ _ => rfl, rfl, Or.inr ⟨rfl, rfl⟩⟩
  · obtain ⟨s', hu⟩ : ∃ s', s.update i (fun d =>
        { d with
          title := patchField body.title d.title
          description := patchField body.description d.description
          endDateTime := patchField body.endDateTime d.endDateTime
          prayerAccess := patchField body.prayerAccess d.prayerAccess
          updatedAt := some now
          prayerType := if truthy body.prayerType then body.prayerType else d.prayerType })
        = some s' := ⟨_, update_eq_some s i _ d h⟩
    have hout : updatePrayer cfg s now i body =
        respond s' 200 (.message "Prayer updated successfully") := by
      unfold updatePrayer
      simp only [hT', hA', hr, Bool.not_true, Bool.false_eq_true, if_false, hu]
    have hg := fun j => get_of_update s s' i j _ hu
    have hgi := hg i
    simp only [if_true, h, Option.map_some'] at hgi
    rw [hout]
    refine ⟨_, hgi, ?_, ?_, ?_, ?_, rfl, rfl, rfl, rfl, rfl, rfl, ?_,
      (impressions_of_update s s' i _ hu).1, Or.inl ⟨rfl, ?_, ?_, ?_, ?_, ?_, rfl⟩⟩
    · intro hn; simp [hn, patchField]
    · intro hn; simp [hn, patchField]
    · intro hn; simp [hn, patchField]
    · intro hn; simp [hn, truthy]
    · intro j hj
      have := hg j
      simpa [hj] using this
    · intro v hv; simp [hv, patchField]
    · intro v hv; simp [hv, patchField]
    · intro v hv; simp [hv, patchField]
    · intro v hv
      rcases hT with hT | hT | hT
      · rw [hT] at hv; simp at hv
      · rw [hT] at hv
        simp only [Option.some.injEq] at hv
        subst hv
        simp [hT, truthy, Val.truthy]
      · rw [hT] at hv
        simp only [Option.some.injEq] at hv
        subst hv
        simp [hT, truthy, Val.truthy]
    · rcases hA with hA | hA <;> simp [hA, patchField]

theorem updatePrayer_patches_supplied_only_witness :
    sampleStore.get 0 = some sampleHidden ∧
    ∃ d', (updatePrayer ⟨true, false⟩ sampleStore 9 0
        ⟨some (.str "Recovery"), none, none, some (.str "public"), none⟩).store.get 0
          = some d' ∧
      d'.description = sampleHidden.description ∧
      d'.endDateTime = sampleHidden.endDateTime ∧
      d'.prayerType = sampleHidden.prayerType ∧
      d'.isOpen = sampleHidden.isOpen ∧
      d'.impressionCount = sampleHidden.impressionCount ∧
      d'.creatorId = sampleHidden.creatorId ∧
      d'.participants = sampleHidden.participants := by
  refine ⟨by decide, ?_⟩
  obtain ⟨d', h1, -, h3, h4, h5, h6, h7, h8, h9, -⟩ :=
    updatePrayer_patches_supplied_only ⟨true, false⟩ sampleStore 9 0
      ⟨some (.str "Recovery"), none, none, some (.str "public"), none⟩ sampleHidden
      (by decide) (by decide) (by decide)
  exact ⟨d', h1, h3 rfl, h4 rfl, h5 rfl, h6, h7, h8, h9⟩

/-! ## listPrayers -/

/-- C9: on a store that holds no prayer id twice, `listPrayers` answers 200 with an
array; with `type` `"hidden"` or `"visible"` it has one entry for exactly the stored
prayers whose `prayerType` equals `type`, in stored order; with `type` absent or any
other value it has one entry for every stored prayer; and each entry is the body
`getPrayer` answers for that prayer. -/
theorem listPrayers_filters_and_redacts (s : Store) (type : Option Val)
    (hn : (s.prayers.map Prod.fst).Nodup) :
    (listPrayers s type).res.status = 200 ∧
    (type = some (.str "hidden") ∨ type = some (.str "visible") →
      ∃ js, (listPrayers s type).res.body = .prayers js ∧
        js.map Body.prayer =
          (s.prayers.filter (fun p => decide (p.2.prayerType = type))).map
            (fun p => (getPrayer s p.1).res.body)) ∧
    (¬ (type = some (.str "hidden") ∨ type = some (.str "visible")) →
      ∃ js, (listPrayers s type).res.body = .prayers js ∧
        js.map Body.prayer = s.prayers.map (fun p => (getPrayer s p.1).res.body)) := by
  let view : Nat × Prayer → PrayerJson := fun doc =>
    if doc.2.prayerType = some (.str "hidden") ∧ doc.2.isOpen = true then
      { id := doc.1
        title := doc.2.title
        description := doc.2.description
        prayerType := doc.2.prayerType
        impressionCount := some doc.2.impressionCount
        isOpen := some doc.2.isOpen
        endDateTime := none
        prayerAccess := none
        creatorId := none
        participants := none
        createdAt := none
        updatedAt := none
        closedAt := none }
    else spread doc.1 doc.2
  have hget : ∀ p ∈ s.prayers, (getPrayer s p.1).res.body = .prayer (view p) := by
    intro p hp
    have hg : s.get p.1 = some p.2 := get_of_mem s p.1 p.2 hn hp
    unfold getPrayer
    simp only [hg, view]
    split <;> rfl
  have hT : (truthy type && includes VALID_PRAYER_TYPES type) = true ↔
      (type = some (.str "hidden") ∨ type = some (.str "visible")) := by
    rcases type with _ | v
    · simp [truthy, includes]
    · cases v <;> simp [truthy, includes, VALID_PRAYER_TYPES, Val.truthy]
      rintro (h | h) <;> simp [h]
  refine ⟨rfl, ?_, ?_⟩
  · intro ht
    refine ⟨(s.prayers.filter (fun doc => doc.2.prayerType == type)).map view, ?_, ?_⟩
    · unfold listPrayers
      simp only [hT.mpr ht, if_true, respond, view]
    · simp only [List.map_map]
      have hf : (fun doc : Nat × Prayer => doc.2.prayerType == type) =
          (fun p => decide (p.2.prayerType = type)) := by
        funext p
        by_cases hp : p.2.prayerType = type <;> simp [hp]
      rw [hf]
      apply List.map_congr_left
      intro p hp
      rw [hget p (List.mem_of_mem_filter hp)]
      rfl
  · intro ht
    refine ⟨s.prayers.map view, ?_, ?_⟩
    · unfold listPrayers
      have : ¬ (truthy type && includes VALID_PRAYER_TYPES type) = true :=
        fun h => ht (hT.mp h)
      simp only [this, if_false, respond, view, Bool.false_eq_true]
    · simp only [List.map_map]
      apply List.map_congr_left
      intro p hp
      rw [hget p hp]
      rfl

theorem listPrayers_filters_and_redacts_witness :
    (sampleStore.prayers.map Prod.fst).Nodup ∧
    ∃ js, (listPrayers sampleStore (some (.str "visible"))).res.body = .prayers js ∧
      js.map Body.prayer =
        (sampleStore.prayers.filter
          (fun p => decide (p.2.prayerType = some (.str "visible")))).map
          (fun p => (getPrayer sampleStore p.1).res.body) :=
  ⟨by decide,
    (listPrayers_filters_and_redacts sampleStore (some (.str "visible")) (by decide)).2.1
      (Or.inr rfl)⟩

/-- Every store reached from the empty store holds no prayer id twice. -/
theorem run_ids_nodup (cfg : Config) (ops : List Op) :
    ((run cfg Store.empty ops).prayers.map Prod.fst).Nodup :=
  (consistent_run cfg ops Store.empty consistent_empty).2.2.1

/-! ## closePrayerAutomatically -/

/-- C10: for an existing prayer `closePrayerAutomatically` sets `isOpen` to false
(stamping `closedAt`, no other field changed), sends `notifyPrayerClosed` for the id,
and sends `notifyHiddenImpressionsRevealed` exactly when `prayerType` is `"hidden"`,
then with the list of all impressions stored under the prayer, each with its id; for
any other prayer type only `notifyPrayerClosed` is sent; when the prayer does not
exist the failure is logged and nothing else happens: the store is unchanged and no
notification is sent. -/
theorem closePrayerAutomatically_closes_and_reveals (s : Store) (now : Nat) (i : Nat) :
    (∀ d, s.get i = some d →
      (closePrayerAutomatically s now i).store.get i =
        some { d with isOpen := false, closedAt := some now } ∧
      (∀ j, j ≠ i → (closePrayerAutomatically s now i).store.get j = s.get j) ∧
      (closePrayerAutomatically s now i).store.impressions = s.impressions ∧
      (d.prayerType = some (.str "hidden") →
        (closePrayerAutomatically s now i).notifications =
          [.notifyPrayerClosed i,
            .notifyHiddenImpressionsRevealed i ((s.impressionsOf i).map (fun doc =>
              { id := doc.id, content := doc.data.content, userId := doc.data.userId,
                createdAt := doc.data.createdAt }))]) ∧
      (d.prayerType ≠ some (.str "hidden") →
        (closePrayerAutomatically s now i).notifications = [.notifyPrayerClosed i]) ∧
      (closePrayerAutomatically s now i).errors = []) ∧
    (s.get i = none →
      (closePrayerAutomatically s now i).store = s ∧
      (closePrayerAutomatically s now i).notifications = [] ∧
      (closePrayerAutomatically s now i).errors =
        ["Failed to automatically close prayer"]) := by
  constructor
  · intro d h
    obtain ⟨s', hu⟩ : ∃ s', s.update i
        (fun d => { d with isOpen := false, closedAt := some now }) = some s' :=
      ⟨_, update_eq_some s i _ d h⟩
    have hg := fun j => get_of_update s s' i j _ hu
    have hi := impressions_of_update s s' i _ hu
    have himp : s'.impressionsOf i = s.impressionsOf i := by
      simp [Store.impressionsOf, hi.1]
    have hout : closePrayerAutomatically s now i =
        { store := s'
          notifications :=
            .notifyPrayerClosed i ::
              (if d.prayerType = some (.str "hidden") then
                [.notifyHiddenImpressionsRevealed i ((s.impressionsOf i).map (fun doc =>
                  { id := doc.id, content := doc.data.content, userId := doc.data.userId,
                    createdAt := doc.data.createdAt }))]
              else [])
          errors := [] } := by
      unfold closePrayerAutomatically
      simp only [h, hu, himp]
    rw [hout]
    refine ⟨?_, ?_, hi.1, ?_, ?_, rfl⟩
    · have := hg i
      simpa [h] using this
    · intro j hj
      have := hg j
      simpa [hj] using this
    · intro ht
      simp only [ht, if_true]
    · intro ht
      simp only [ht, if_false]
  · intro h
    simp [closePrayerAutomatically, h]

theorem closePrayerAutomatically_closes_and_reveals_witness :
    sampleStore.get 0 = some sampleHidden ∧
    sampleHidden.prayerType = some (.str "hidden") ∧
    sampleStore.get 1 = some sampleVisible ∧
    sampleVisible.prayerType ≠ some (.str "hidden") ∧
    sampleStore.get 5 = none ∧
    (closePrayerAutomatically sampleStore 9 0).store.get 0 =
      some { sampleHidden with isOpen := false, closedAt := some 9 } ∧
    (closePrayerAutomatically sampleStore 9 0).notifications =
      [.notifyPrayerClosed 0,
        .notifyHiddenImpressionsRevealed 0
          [{ id := 2, content := some (.str "amen"), userId := "bob", createdAt := 3 }]] ∧
    (closePrayerAutomatically sampleStore 9 1).notifications = [.notifyPrayerClosed 1] ∧
    (closePrayerAutomatically sampleStore 9 5).store = sampleStore :=
  ⟨by decide, by decide, by decide, by decide, by decide,
    ((closePrayerAutomatically_closes_and_reveals sampleStore 9 0).1 sampleHidden
      (by decide)).1,
    ((closePrayerAutomatically_closes_and_reveals sampleStore 9 0).1 sampleHidden
      (by decide)).2.2.2.1 (by decide),
    ((closePrayerAutomatically_closes_and_reveals sampleStore 9 1).1 sampleVisible
      (by decide)).2.2.2.2.1 (by decide),
    ((closePrayerAutomatically_closes_and_reveals sampleStore 9 5).2 (by decide)).1⟩

end PrayerController
